import Mathlib

-- Verification of the tool-contract layer and provisioning helpers of this
-- repository of agent-SDK sample notebooks.  The repository-authored code is
-- small: two demo tools (current_time, current_weather) registered with a
-- LiteLLM-backed agent, a web-search tool (websearch) wrapping the DuckDuckGo
-- search client in a catch-all exception ladder, and two S3 provisioning
-- helpers (create_s3_bucket, upload_directory) used while building a Bedrock
-- knowledge base.  External collaborators (the zoneinfo database, the wall
-- clock, the DuckDuckGo client, the S3 API) are modelled as explicit
-- parameters; a Python exception escaping a function is modelled by an
-- Except error value, and a function that cannot raise returns plainly.

namespace Samples

-- ### The time / weather tools (LiteLLM notebook)

-- A zone-aware datetime value as produced by Python's datetime.now(tzobj),
-- modelled at the granularity the notebook observes: the calendar and clock
-- fields.  Microseconds are included because datetime.isoformat prints them
-- whenever they are nonzero.
structure PyDateTime where
  year : Nat
  month : Nat
  day : Nat
  hour : Nat
  minute : Nat
  second : Nat
  microsecond : Nat
deriving Repr, DecidableEq

-- Field ranges guaranteed by Python's datetime type.
def PyDateTime.valid (t : PyDateTime) : Prop :=
  t.year ≤ 9999 ∧ 1 ≤ t.month ∧ t.month ≤ 12 ∧ 1 ≤ t.day ∧ t.day ≤ 31 ∧
    t.hour ≤ 23 ∧ t.minute ≤ 59 ∧ t.second ≤ 59 ∧ t.microsecond ≤ 999999

instance (t : PyDateTime) : Decidable t.valid := by
  unfold PyDateTime.valid
  infer_instance

-- The tzinfo object bound to timezone_obj in current_time: either the fixed
-- zero-offset UTC object (datetime.timezone.utc) or a ZoneInfo zone carrying
-- its UTC offset in minutes.
inductive TzObj where
  | utc
  | zone (offsetMin : Int)
deriving Repr, DecidableEq

def tzOffset : TzObj → Int
  | TzObj.utc => 0
  | TzObj.zone off => off

-- The IANA database consulted by ZoneInfo(key): a name-to-offset table.
def TzDb : Type := List (String × Int)

-- ZoneInfo(key) lookup: some offset for a known key, none when the real
-- constructor would raise ZoneInfoNotFoundError.
def zoneInfo (db : TzDb) (key : String) : Option Int :=
  match db with
  | [] => none
  | p :: rest => if p.1 = key then some p.2 else zoneInfo rest key

-- A small concrete sample of the IANA database, used to evaluate the tools
-- on concrete inputs.
def sampleTzDb : TzDb :=
  [("America/New_York", -300), ("Europe/Paris", 60), ("Asia/Tokyo", 540),
   ("UTC", 0), ("America/Los_Angeles", -480)]

-- Python's str.upper, modelled over the character list (the ASCII case map of
-- Char.toUpper, which covers every IANA zone name and the "UTC" comparison).
def pyUpper (s : String) : String := String.mk (s.data.map Char.toUpper)

-- Digit rendering used by datetime.isoformat: most significant digit first,
-- zero padded to the requested width.
def digitChar (n : Nat) : Char := Char.ofNat (48 + n)

def padDigits : Nat → Nat → List Char
  | 0, _ => []
  | k + 1, n => digitChar (n / 10 ^ k % 10) :: padDigits k n

-- The character stream of datetime.isoformat(t) for a zone-aware datetime
-- whose utcoffset is offMin minutes:
-- YYYY-MM-DDTHH:MM:SS[.ffffff]+HH:MM (sign - for negative offsets).
def isoChars (t : PyDateTime) (offMin : Int) : List Char :=
  padDigits 4 t.year ++ '-' :: padDigits 2 t.month ++ '-' :: padDigits 2 t.day ++
    'T' :: padDigits 2 t.hour ++ ':' :: padDigits 2 t.minute ++ ':' :: padDigits 2 t.second ++
    (if t.microsecond = 0 then ([] : List Char) else '.' :: padDigits 6 t.microsecond) ++
    (if offMin < 0 then '-' else '+') ::
      (padDigits 2 (offMin.natAbs / 60) ++ ':' :: padDigits 2 (offMin.natAbs % 60))

-- datetime.isoformat as a string.
def isoformat (t : PyDateTime) (offMin : Int) : String := String.mk (isoChars t offMin)

-- The exception current_time can raise: ZoneInfo(timezone) raising
-- ZoneInfoNotFoundError for a key absent from the database.
inductive ToolError where
  | zoneInfoNotFound (key : String)
deriving Repr, DecidableEq

-- The current_time tool.  Source:
--   if timezone.upper() == "UTC": timezone_obj = tz.utc
--   else: timezone_obj = ZoneInfo(timezone)      -- may raise
--   return datetime.now(timezone_obj).isoformat()
-- The wall clock datetime.now is an external observation, passed as the
-- clock oracle; an escaped exception is an Except.error result.
def current_time (db : TzDb) (clock : TzObj → PyDateTime) (timezone : String) :
    Except ToolError String :=
  match (if pyUpper timezone = "UTC" then Except.ok TzObj.utc
         else match zoneInfo db timezone with
           | some off => Except.ok (TzObj.zone off)
           | none => Except.error (ToolError.zoneInfoNotFound timezone)) with
  | Except.ok timezone_obj =>
      Except.ok (isoformat (clock timezone_obj) (tzOffset timezone_obj))
  | Except.error e => Except.error e

-- The current_weather tool.  Source: return "sunny" (dummy implementation).
def current_weather (city : String) : String := "sunny"

-- A concrete clock observation for evaluating theorems on concrete inputs.
def sampleClock : TzObj → PyDateTime :=
  fun _ => PyDateTime.mk 2025 6 1 12 30 15 0

-- Whether a tool call returned a string (rather than letting an exception
-- escape to the agent runtime).
def returnsString (r : Except ToolError String) : Bool :=
  match r with
  | Except.ok _ => true
  | Except.error _ => false

-- ### The websearch tool (memory notebook)

-- One record of the list DDGS().text returns.
structure SearchResult where
  title : String
  href : String
  body : String
deriving Repr, DecidableEq

-- Outcome of one underlying DDGS().text call: either the provider's available
-- records, or one of the exceptions the source distinguishes, classified the
-- way the except ladder does (RatelimitException first, then any other
-- DuckDuckGoSearchException, then any other Exception).
inductive SearchOutcome where
  | ok (avail : List SearchResult)
  | ratelimit (msg : String)
  | ddgsError (msg : String)
  | otherError (msg : String)
deriving Repr, DecidableEq

-- What DDGS().text hands back on a successful call: the available records,
-- truncated to max_results when a cap is given (the library honours the cap).
def ddgsText (max_results : Option Nat) (avail : List SearchResult) : List SearchResult :=
  match max_results with
  | some n => avail.take n
  | none => avail

-- The value websearch returns to the agent runtime: either the record list or
-- a plain message string (the source's return type is a union of both).
inductive ToolResult where
  | records (rs : List SearchResult)
  | message (s : String)
deriving Repr, DecidableEq

-- The websearch tool.  Source:
--   try:
--       results = DDGS().text(keywords, region=region, max_results=max_results)
--       return results if results else "No results found."
--   except RatelimitException:
--       return "RatelimitException: Please try again after a short delay."
--   except DuckDuckGoSearchException as d:
--       return f"DuckDuckGoSearchException: {d}"
--   except Exception as e:
--       return f"Exception: {e}"
-- The attempts list is the oracle of successive underlying-call outcomes; the
-- function consumes outcomes from its front and returns the unconsumed rest,
-- so the number of attempts a call makes is visible in the result.  Every
-- branch returns a ToolResult: the except ladder leaves no exception channel.
def websearch (attempts : List SearchOutcome) (keywords : String) (region : String)
    (max_results : Option Nat) : Option (ToolResult × List SearchOutcome) :=
  match attempts with
  | [] => none
  | outcome :: rest =>
      some (match outcome with
        | SearchOutcome.ok avail =>
            let results := ddgsText max_results avail
            if results.isEmpty then ToolResult.message "No results found."
            else ToolResult.records results
        | SearchOutcome.ratelimit _ =>
            ToolResult.message "RatelimitException: Please try again after a short delay."
        | SearchOutcome.ddgsError d =>
            ToolResult.message ("DuckDuckGoSearchException: " ++ d)
        | SearchOutcome.otherError e =>
            ToolResult.message ("Exception: " ++ e), rest)

-- s begins with the label pre.
def startsWithStr (pre s : String) : Prop := ∃ t : String, s = pre ++ t

-- ### An independent reader for ISO-8601 timestamps, used to state that the
-- strings current_time returns are parseable and carry the zone's offset.

def digitVal (c : Char) : Option Nat :=
  if 48 ≤ c.toNat ∧ c.toNat ≤ 57 then some (c.toNat - 48) else none

def readDigitsAux (acc : Nat) : Nat → List Char → Option (Nat × List Char)
  | 0, cs => some (acc, cs)
  | _ + 1, [] => none
  | k + 1, c :: cs =>
      match digitVal c with
      | some v => readDigitsAux (acc * 10 + v) k cs
      | none => none

-- Read exactly k decimal digits.
def readDigits (k : Nat) (cs : List Char) : Option (Nat × List Char) :=
  readDigitsAux 0 k cs

def expectChar (c : Char) (cs : List Char) : Option (List Char) :=
  match cs with
  | [] => none
  | x :: xs => if x = c then some xs else none

-- Optional fractional-seconds field: ".ffffff" when present, else 0.
def parseMicroPart (cs : List Char) : Option (Nat × List Char) :=
  match cs with
  | '.' :: cs2 => readDigits 6 cs2
  | _ => some (0, cs)

-- Offset sign: +1 or -1.
def parseSignPart (cs : List Char) : Option (Int × List Char) :=
  match cs with
  | '+' :: cs2 => some ((1 : Int), cs2)
  | '-' :: cs2 => some ((-1 : Int), cs2)
  | _ => none

-- Read YYYY-MM-DDTHH:MM:SS[.ffffff]±HH:MM and return the datetime fields and
-- the signed offset in minutes; none on any malformed input.
def parseIsoChars (cs : List Char) : Option (PyDateTime × Int) :=
  match readDigits 4 cs with
  | none => none
  | some (y, cs) =>
  match expectChar '-' cs with
  | none => none
  | some cs =>
  match readDigits 2 cs with
  | none => none
  | some (mo, cs) =>
  match expectChar '-' cs with
  | none => none
  | some cs =>
  match readDigits 2 cs with
  | none => none
  | some (d, cs) =>
  match expectChar 'T' cs with
  | none => none
  | some cs =>
  match readDigits 2 cs with
  | none => none
  | some (h, cs) =>
  match expectChar ':' cs with
  | none => none
  | some cs =>
  match readDigits 2 cs with
  | none => none
  | some (mi, cs) =>
  match expectChar ':' cs with
  | none => none
  | some cs =>
  match readDigits 2 cs with
  | none => none
  | some (s, cs) =>
  match parseMicroPart cs with
  | none => none
  | some (us, cs) =>
  match parseSignPart cs with
  | none => none
  | some (sgn, cs) =>
  match readDigits 2 cs with
  | none => none
  | some (oh, cs) =>
  match expectChar ':' cs with
  | none => none
  | some cs =>
  match readDigits 2 cs with
  | none => none
  | some (om, cs) =>
  match cs with
  | [] => some (PyDateTime.mk y mo d h mi s us, sgn * ((oh : Int) * 60 + (om : Int)))
  | _ => none

def parseIso (s : String) : Option (PyDateTime × Int) := parseIsoChars s.data

-- ### The S3 provisioning helpers (knowledge-base notebook)

-- The request an s3.create_bucket call sends: the bucket name, and the
-- CreateBucketConfiguration LocationConstraint when one is supplied.
structure CreateBucketRequest where
  bucket : String
  locationConstraint : Option String
deriving Repr, DecidableEq

-- A botocore ClientError raised by the external API.
structure ClientError where
  message : String
deriving Repr, DecidableEq

-- The create_s3_bucket helper.  Source:
--   def create_s3_bucket(bucket_name, region=None):
--       s3 = boto3.client('s3', region_name=region)
--       try:
--           if region is None or region == 'us-east-1':
--               s3.create_bucket(Bucket=bucket_name)
--           else:
--               s3.create_bucket(Bucket=bucket_name,
--                   CreateBucketConfiguration={'LocationConstraint': region})
--           print(f"... created successfully.")
--       except botocore.exceptions.ClientError as e:
--           print(f"... Failed to create bucket: ...")
-- The external API is the api parameter; the value component models the
-- Python return value (always None) together with the printed line, and the
-- outer Except is the exception channel left open by the try block.
def create_s3_bucket (api : CreateBucketRequest → Except ClientError Unit)
    (bucket_name : String) (region : Option String) :
    Except ClientError (Option Unit × String) :=
  match (if region = none ∨ region = some "us-east-1"
         then api (CreateBucketRequest.mk bucket_name none)
         else api (CreateBucketRequest.mk bucket_name region)) with
  | Except.ok _ =>
      Except.ok (none, "✅ Bucket \x27" ++ bucket_name ++ "\x27 created successfully.")
  | Except.error e =>
      Except.ok (none, "❌ Failed to create bucket: " ++ e.message)

-- The single request create_s3_bucket sends for a given region.
def requestFor (bucket_name : String) (region : Option String) : CreateBucketRequest :=
  if region = none ∨ region = some "us-east-1"
  then CreateBucketRequest.mk bucket_name none
  else CreateBucketRequest.mk bucket_name region

-- create_s3_bucket as claim C7 describes it: a single unconditional call to
-- the external create-bucket API with the given region, behaving identically
-- for every region and letting any API failure propagate unchanged.
def create_s3_bucket_unconditional (api : CreateBucketRequest → Except ClientError Unit)
    (bucket_name : String) (region : Option String) :
    Except ClientError (Option Unit × String) :=
  match api (CreateBucketRequest.mk bucket_name region) with
  | Except.ok _ =>
      Except.ok (none, "✅ Bucket \x27" ++ bucket_name ++ "\x27 created successfully.")
  | Except.error e => Except.error e

-- create_s3_bucket as amended: one region-shaped request, with a ClientError
-- intercepted into the printed failure line and a normal None return.
def create_s3_bucket_described (api : CreateBucketRequest → Except ClientError Unit)
    (bucket_name : String) (region : Option String) :
    Except ClientError (Option Unit × String) :=
  Except.ok (none,
    match api (requestFor bucket_name region) with
    | Except.ok _ => "✅ Bucket \x27" ++ bucket_name ++ "\x27 created successfully."
    | Except.error e => "❌ Failed to create bucket: " ++ e.message)

-- A concrete API behaviour that refuses every request.
def alwaysDenied : CreateBucketRequest → Except ClientError Unit :=
  fun _ => Except.error (ClientError.mk "Access Denied")

-- One directory visited by os.walk: its path and the plain files inside it.
structure WalkEntry where
  root : String
  files : List String
deriving Repr, DecidableEq

-- os.path.join(root, file) for a plain file name.
def pathJoin (root f : String) : String := root ++ "/" ++ f

-- One s3_client.upload_file(file_to_upload, bucket_name, file) call.
structure UploadOp where
  src : String
  bucket : String
  key : String
deriving Repr, DecidableEq

-- The upload_directory helper.  Source:
--   def upload_directory(path, bucket_name):
--       for root, dirs, files in os.walk(path):
--           for file in files:
--               file_to_upload = os.path.join(root, file)
--               s3_client.upload_file(file_to_upload, bucket_name, file)
-- The walk parameter is the os.walk traversal of path, in traversal order;
-- the result is the sequence of upload calls the loop issues, in order.
def upload_directory (walk : List WalkEntry) (bucket_name : String) : List UploadOp :=
  walk.flatMap (fun e => e.files.map (fun f => UploadOp.mk (pathJoin e.root f) bucket_name f))

-- S3 object-store semantics of a sequence of uploads: each put stores the
-- source under its key, overwriting any earlier object with the same key.
def s3Apply (ops : List UploadOp) (store : String → Option String) : String → Option String :=
  ops.foldl (fun st op => fun q => if q = op.key then some op.src else st q) store

def s3After (ops : List UploadOp) : String → Option String := s3Apply ops (fun _ => none)

-- ### Derived notions used to state the claims

-- A timezone argument current_time resolves without raising: any case
-- variant of UTC, or a name the zone database knows.
def tzValid (db : TzDb) (tz : String) : Prop :=
  pyUpper tz = "UTC" ∨ (zoneInfo db tz).isSome = true

-- The tzinfo object current_time binds for a resolvable timezone argument.
def resolvedTz (db : TzDb) (tz : String) : TzObj :=
  if pyUpper tz = "UTC" then TzObj.utc else TzObj.zone ((zoneInfo db tz).getD 0)

def tzOffsetOf (db : TzDb) (tz : String) : Int := tzOffset (resolvedTz db tz)

-- A concrete search record for evaluating websearch on concrete inputs.
def catResult : SearchResult :=
  SearchResult.mk "Cats" "https://example.com/cats" "All about cats"

-- ### Round-trip lemmas for the digit rendering

theorem digitVal_digitChar (v : Nat) (h : v < 10) : digitVal (digitChar v) = some v := by
  interval_cases v <;> decide

theorem readDigitsAux_padDigits (k : Nat) (acc n : Nat) (rest : List Char) :
    readDigitsAux acc k (padDigits k n ++ rest) = some (acc * 10 ^ k + n % 10 ^ k, rest) := by
  induction k generalizing acc n with
  | zero => simp [padDigits, readDigitsAux, Nat.mod_one]
  | succ k ih =>
      have hd : n / 10 ^ k % 10 < 10 := Nat.mod_lt _ (by norm_num)
      simp only [padDigits, List.cons_append, readDigitsAux,
        digitVal_digitChar _ hd, List.append_eq]
      rw [ih]
      refine congrArg (fun x => some (x, rest)) ?_
      rw [pow_succ, Nat.mod_mul]
      ring

theorem readDigits_padDigits (k n : Nat) (rest : List Char) (h : n < 10 ^ k) :
    readDigits k (padDigits k n ++ rest) = some (n, rest) := by
  rw [readDigits, readDigitsAux_padDigits]
  simp [Nat.mod_eq_of_lt h]

theorem expectChar_cons (c : Char) (rest : List Char) :
    expectChar c (c :: rest) = some rest := by
  simp [expectChar]

theorem parseMicroPart_dot (us : Nat) (rest : List Char) (h : us < 10 ^ 6) :
    parseMicroPart ('.' :: (padDigits 6 us ++ rest)) = some (us, rest) := by
  simp [parseMicroPart, readDigits_padDigits 6 us rest h]

theorem parseMicroPart_plus (rest : List Char) :
    parseMicroPart ('+' :: rest) = some (0, '+' :: rest) := rfl

theorem parseMicroPart_minus (rest : List Char) :
    parseMicroPart ('-' :: rest) = some (0, '-' :: rest) := rfl

theorem parseSignPart_plus (rest : List Char) :
    parseSignPart ('+' :: rest) = some (1, rest) := rfl

theorem parseSignPart_minus (rest : List Char) :
    parseSignPart ('-' :: rest) = some (-1, rest) := rfl

-- The reader recovers exactly the rendered datetime and offset.
theorem parseIsoChars_isoChars (t : PyDateTime) (off : Int)
    (ht : t.valid) (hoff : off.natAbs < 1440) :
    parseIsoChars (isoChars t off) = some (t, off) := by
  obtain ⟨hy, hmo1, hmo2, hd1, hd2, hh, hmi, hs, hus⟩ := ht
  have e1 : ∀ rest, readDigits 4 (padDigits 4 t.year ++ rest) = some (t.year, rest) :=
    fun rest => readDigits_padDigits _ _ _ (by omega)
  have e2 : ∀ rest, readDigits 2 (padDigits 2 t.month ++ rest) = some (t.month, rest) :=
    fun rest => readDigits_padDigits _ _ _ (by omega)
  have e3 : ∀ rest, readDigits 2 (padDigits 2 t.day ++ rest) = some (t.day, rest) :=
    fun rest => readDigits_padDigits _ _ _ (by omega)
  have e4 : ∀ rest, readDigits 2 (padDigits 2 t.hour ++ rest) = some (t.hour, rest) :=
    fun rest => readDigits_padDigits _ _ _ (by omega)
  have e5 : ∀ rest, readDigits 2 (padDigits 2 t.minute ++ rest) = some (t.minute, rest) :=
    fun rest => readDigits_padDigits _ _ _ (by omega)
  have e6 : ∀ rest, readDigits 2 (padDigits 2 t.second ++ rest) = some (t.second, rest) :=
    fun rest => readDigits_padDigits _ _ _ (by omega)
  have eoh : ∀ rest, readDigits 2 (padDigits 2 (off.natAbs / 60) ++ rest) =
      some (off.natAbs / 60, rest) :=
    fun rest => readDigits_padDigits _ _ _ (by omega)
  have eom : readDigits 2 (padDigits 2 (off.natAbs % 60)) = some (off.natAbs % 60, []) := by
    have h := readDigits_padDigits 2 (off.natAbs % 60) []
      (by have := Nat.mod_lt off.natAbs (show 0 < 60 by norm_num); omega)
    rwa [List.append_nil] at h
  -- name the offset tail and the sign character
  set sg : Char := if off < 0 then '-' else '+' with hsg
  set tail : List Char := padDigits 2 (off.natAbs / 60) ++ ':' :: padDigits 2 (off.natAbs % 60)
    with htail
  -- the fractional part followed by the signed offset tail
  set mid : List Char :=
    (if t.microsecond = 0 then ([] : List Char) else '.' :: padDigits 6 t.microsecond) ++
      sg :: tail with hmid
  have hiso : isoChars t off =
      padDigits 4 t.year ++ '-' :: (padDigits 2 t.month ++ '-' :: (padDigits 2 t.day ++
        'T' :: (padDigits 2 t.hour ++ ':' :: (padDigits 2 t.minute ++
          ':' :: (padDigits 2 t.second ++ mid))))) := by
    rw [hmid, hsg, htail]
    simp [isoChars]
  have hmicro : parseMicroPart mid = some (t.microsecond, sg :: tail) := by
    by_cases husz : t.microsecond = 0
    · rw [hmid, husz, if_pos rfl, List.nil_append, hsg]
      by_cases hneg : off < 0
      · rw [if_pos hneg, parseMicroPart_minus]
      · rw [if_neg hneg, parseMicroPart_plus]
    · rw [hmid, if_neg husz, List.cons_append, parseMicroPart_dot _ _ (by omega)]
  have hsign : parseSignPart (sg :: tail) =
      some (if off < 0 then (-1 : Int) else 1, tail) := by
    rw [hsg]
    by_cases hneg : off < 0
    · rw [if_pos hneg, if_pos hneg, parseSignPart_minus]
    · rw [if_neg hneg, if_neg hneg, parseSignPart_plus]
  simp only [parseIsoChars, hiso, e1, expectChar_cons, e2, e3, e4, e5, e6, hmicro, hsign,
    htail, eoh, eom, Option.some.injEq, Prod.mk.injEq]
  refine ⟨trivial, ?_⟩
  by_cases hneg : off < 0
  · simp only [if_pos hneg]
    omega
  · simp only [if_neg hneg]
    omega

theorem parseIso_isoformat (t : PyDateTime) (off : Int)
    (ht : t.valid) (hoff : off.natAbs < 1440) :
    parseIso (isoformat t off) = some (t, off) :=
  parseIsoChars_isoChars t off ht hoff

theorem s3Apply_append (a b : List UploadOp) (store : String → Option String) :
    s3Apply (a ++ b) store = s3Apply b (s3Apply a store) := by
  simp [s3Apply, List.foldl_append]

theorem s3Apply_not_written (ops : List UploadOp) (store : String → Option String) (q : String)
    (h : ∀ op ∈ ops, op.key ≠ q) : s3Apply ops store q = store q := by
  induction ops generalizing store with
  | nil => rfl
  | cons op rest ih =>
      have hop : op.key ≠ q := h op (List.mem_cons_self op rest)
      have hrest : ∀ o ∈ rest, o.key ≠ q := fun o ho => h o (List.mem_cons_of_mem op ho)
      have step := ih (fun q' => if q' = op.key then some op.src else store q') hrest
      simp only [s3Apply, List.foldl_cons] at step ⊢
      rw [step]
      have hq : q ≠ op.key := fun hq => hop hq.symm
      simp [hq]

-- Every upload key produced for walk is a bare file name of some entry.
theorem upload_directory_key_mem (walk : List WalkEntry) (b : String) (op : UploadOp)
    (h : op ∈ upload_directory walk b) : ∃ e ∈ walk, op.key ∈ e.files := by
  simp only [upload_directory, List.mem_flatMap, List.mem_map] at h
  obtain ⟨e, he, f, hf, rfl⟩ := h
  exact ⟨e, he, hf⟩

-- What one run of create_s3_bucket amounts to: a single API call on the
-- region-shaped request, a normal None return, and a message that reports the
-- caught ClientError on failure.
theorem create_s3_bucket_run (api : CreateBucketRequest → Except ClientError Unit)
    (bucket_name : String) (region : Option String) :
    create_s3_bucket api bucket_name region = Except.ok (none,
      match api (requestFor bucket_name region) with
      | Except.ok _ => "✅ Bucket \x27" ++ bucket_name ++ "\x27 created successfully."
      | Except.error e => "❌ Failed to create bucket: " ++ e.message) := by
  unfold create_s3_bucket requestFor
  by_cases h : region = none ∨ region = some "us-east-1"
  · simp only [if_pos h]
    cases api (CreateBucketRequest.mk bucket_name none) <;> rfl
  · simp only [if_neg h]
    cases api (CreateBucketRequest.mk bucket_name region) <;> rfl

-- ### The claims

/-- C1, counterexample: the claim says every registered tool is total, and in
particular that current_time returns a string for every string timezone,
including invalid zone names.  On the code this fails: for a name the zone
database does not know, ZoneInfo(timezone) raises ZoneInfoNotFoundError and
current_time propagates it. -/
theorem current_time_not_total_on_invalid_zone :
    current_time sampleTzDb sampleClock "Mars/Olympus" =
      Except.error (ToolError.zoneInfoNotFound "Mars/Olympus") ∧
    returnsString (current_time sampleTzDb sampleClock "Mars/Olympus") = false := by
  constructor <;> rfl

/-- C1, amended: websearch is total (every available outcome yields a result),
current_weather is total, and current_time returns a string exactly when the
timezone argument is a case variant of "UTC" or a name the zone database
knows; otherwise the ZoneInfoNotFoundError escapes. -/
theorem tool_totality_amended (db : TzDb) (clock : TzObj → PyDateTime)
    (attempts : List SearchOutcome) (keywords region : String) (max_results : Option Nat)
    (tz : String) (h : attempts ≠ []) :
    (websearch attempts keywords region max_results).isSome = true ∧
    (returnsString (current_time db clock tz) = true ↔
      (pyUpper tz = "UTC" ∨ (zoneInfo db tz).isSome = true)) ∧
    (∀ city : String, ∃ s : String, current_weather city = s) := by
  refine ⟨?_, ?_, fun city => ⟨"sunny", rfl⟩⟩
  · cases attempts with
    | nil => exact absurd rfl h
    | cons o rest => simp [websearch]
  · by_cases hU : pyUpper tz = "UTC"
    · simp [current_time, returnsString, hU]
    · cases hz : zoneInfo db tz with
      | none => simp [current_time, returnsString, hU, hz]
      | some off => simp [current_time, returnsString, hU, hz]

/-- C1, witness for the amended theorem at concrete inputs. -/
theorem tool_totality_amended_witness :
    ([SearchOutcome.ratelimit "slow down"] ≠ ([] : List SearchOutcome)) ∧
    ((websearch [SearchOutcome.ratelimit "slow down"] "cats" "us-en" none).isSome = true ∧
      (returnsString (current_time sampleTzDb sampleClock "Asia/Tokyo") = true ↔
        (pyUpper "Asia/Tokyo" = "UTC" ∨ (zoneInfo sampleTzDb "Asia/Tokyo").isSome = true)) ∧
      (∀ city : String, ∃ s : String, current_weather city = s)) :=
  ⟨by decide, tool_totality_amended sampleTzDb sampleClock
    [SearchOutcome.ratelimit "slow down"] "cats" "us-en" none "Asia/Tokyo" (by decide)⟩

/-- C2: each simulated failure of the underlying search is converted into a
message labelled by the failure kind (RatelimitException, then
DuckDuckGoSearchException, then Exception), exactly one underlying attempt is
consumed (its successors are returned untouched), and the label is delivered
as an ordinary result. -/
theorem websearch_error_taxonomy (keywords region : String) (max_results : Option Nat)
    (rest : List SearchOutcome) (rmsg dmsg emsg : String) :
    (∃ s, websearch (SearchOutcome.ratelimit rmsg :: rest) keywords region max_results =
        some (ToolResult.message s, rest) ∧ startsWithStr "RatelimitException" s) ∧
    (∃ s, websearch (SearchOutcome.ddgsError dmsg :: rest) keywords region max_results =
        some (ToolResult.message s, rest) ∧ startsWithStr "DuckDuckGoSearchException" s) ∧
    (∃ s, websearch (SearchOutcome.otherError emsg :: rest) keywords region max_results =
        some (ToolResult.message s, rest) ∧ startsWithStr "Exception" s) := by
  refine ⟨⟨_, rfl, ": Please try again after a short delay.", rfl⟩,
    ⟨_, rfl, ": " ++ dmsg, ?_⟩, ⟨_, rfl, ": " ++ emsg, ?_⟩⟩
  · exact String.append_assoc "DuckDuckGoSearchException" ": " dmsg
  · exact String.append_assoc "Exception" ": " emsg

/-- C3: for keywords "cats" with a cap of 3, a successful underlying search
yields at most 3 records, and the literal "No results found." when the
provider has none. -/
theorem websearch_cats_at_most_three (avail : List SearchResult) (rest : List SearchOutcome) :
    (avail = [] → websearch (SearchOutcome.ok avail :: rest) "cats" "us-en" (some 3) =
        some (ToolResult.message "No results found.", rest)) ∧
    (avail ≠ [] → ∃ rs, websearch (SearchOutcome.ok avail :: rest) "cats" "us-en" (some 3) =
        some (ToolResult.records rs, rest) ∧ rs.length ≤ 3) := by
  constructor
  · rintro rfl
    rfl
  · intro hne
    have hemp : (ddgsText (some 3) avail).isEmpty = false := by
      cases avail with
      | nil => exact absurd rfl hne
      | cons a l => rfl
    refine ⟨avail.take 3, ?_, ?_⟩
    · simp [websearch, hemp, ddgsText]
      exact hne
    · simp only [List.length_take]
      omega

/-- C3, witness at a concrete nonempty provider result. -/
theorem websearch_cats_at_most_three_witness :
    ([catResult] ≠ ([] : List SearchResult)) ∧
    (∃ rs, websearch (SearchOutcome.ok [catResult] :: []) "cats" "us-en" (some 3) =
        some (ToolResult.records rs, []) ∧ rs.length ≤ 3) :=
  ⟨by decide, (websearch_cats_at_most_three [catResult] []).2 (by decide)⟩

/-- C5: current_weather returns the constant string "sunny" for every input
city and never fails. -/
theorem current_weather_always_sunny : ∀ city : String, current_weather city = "sunny" :=
  fun _ => rfl

/-- C4: for a resolvable timezone argument, current_time returns a string the
ISO reader parses back to exactly the observed clock reading together with
that zone's UTC offset; for the "UTC" argument the offset read back is zero
and the reading is the one observed on the fixed UTC object. -/
theorem current_time_returns_parseable_iso (db : TzDb) (clock : TzObj → PyDateTime)
    (tz : String) (hv : tzValid db tz) (hclock : ∀ obj, (clock obj).valid)
    (hoff : (tzOffsetOf db tz).natAbs < 1440) :
    (∃ s, current_time db clock tz = Except.ok s ∧
        parseIso s = some (clock (resolvedTz db tz), tzOffsetOf db tz)) ∧
    (∃ s0, current_time db clock "UTC" = Except.ok s0 ∧
        parseIso s0 = some (clock TzObj.utc, 0)) := by
  have hUTCutc : pyUpper "UTC" = "UTC" := rfl
  constructor
  · by_cases hU : pyUpper tz = "UTC"
    · refine ⟨isoformat (clock TzObj.utc) 0, ?_, ?_⟩
      · simp [current_time, hU, tzOffset]
      · have h0 : resolvedTz db tz = TzObj.utc := by simp [resolvedTz, hU]
        have h1 : tzOffsetOf db tz = 0 := by simp [tzOffsetOf, h0, tzOffset]
        rw [h0, h1]
        exact parseIso_isoformat _ 0 (hclock TzObj.utc) (by decide)
    · have hsome : (zoneInfo db tz).isSome = true := by
        rcases hv with hU2 | hsome
        · exact absurd hU2 hU
        · exact hsome
      obtain ⟨off, hz⟩ := Option.isSome_iff_exists.mp hsome
      have h0 : resolvedTz db tz = TzObj.zone off := by simp [resolvedTz, hU, hz]
      have h1 : tzOffsetOf db tz = off := by simp [tzOffsetOf, h0, tzOffset]
      refine ⟨isoformat (clock (TzObj.zone off)) off, ?_, ?_⟩
      · simp [current_time, hU, hz, tzOffset]
      · rw [h0, h1]
        refine parseIso_isoformat _ off (hclock _) ?_
        rw [h1] at hoff
        exact hoff
  · refine ⟨isoformat (clock TzObj.utc) 0, ?_, ?_⟩
    · simp [current_time, hUTCutc, tzOffset]
    · exact parseIso_isoformat _ 0 (hclock TzObj.utc) (by decide)

/-- C4, witness at the sample database, sample clock and a concrete zone. -/
theorem current_time_returns_parseable_iso_witness :
    tzValid sampleTzDb "America/New_York" ∧
    (∃ s, current_time sampleTzDb sampleClock "America/New_York" = Except.ok s ∧
        parseIso s = some (sampleClock (resolvedTz sampleTzDb "America/New_York"),
          tzOffsetOf sampleTzDb "America/New_York")) :=
  ⟨Or.inr (by decide),
    (current_time_returns_parseable_iso sampleTzDb sampleClock "America/New_York"
      (Or.inr (by decide))
      (fun _ => (by decide : (PyDateTime.mk 2025 6 1 12 30 15 0).valid)) (by decide)).1⟩

/-- C6: invoking current_weather twice with the same input yields identical
results, and two invocations of current_time with the same timezone share one
timezone resolution, so their results can differ only through the wall-clock
observation. -/
theorem tools_idempotent (city : String) (db : TzDb) (tz : String) :
    current_weather city = current_weather city ∧
    ∃ r : Except ToolError TzObj, ∀ clock : TzObj → PyDateTime,
      current_time db clock tz = r.map (fun obj => isoformat (clock obj) (tzOffset obj)) := by
  refine ⟨rfl, ?_⟩
  by_cases hU : pyUpper tz = "UTC"
  · exact ⟨Except.ok TzObj.utc, fun clock => by simp [current_time, hU, Except.map]⟩
  · cases hz : zoneInfo db tz with
    | none =>
        exact ⟨Except.error (ToolError.zoneInfoNotFound tz), fun clock => by
          simp [current_time, hU, hz, Except.map]⟩
    | some off =>
        exact ⟨Except.ok (TzObj.zone off), fun clock => by
          simp [current_time, hU, hz, Except.map]⟩

/-- C7, counterexample: the claim says the provisioning helper is equivalent
to one unconditional create-bucket call letting any API failure propagate.
With an API that refuses the request, the code returns normally while the
unconditional call propagates the ClientError, so the two differ. -/
theorem create_s3_bucket_not_unconditional :
    create_s3_bucket alwaysDenied "demo-bucket" (some "eu-west-1") ≠
      create_s3_bucket_unconditional alwaysDenied "demo-bucket" (some "eu-west-1") := by
  intro h
  exact Except.noConfusion h

/-- C7, amended: create_s3_bucket performs exactly one create-bucket call, on
a request shaped by the region (no LocationConstraint for None or us-east-1,
the region as LocationConstraint otherwise), intercepts ClientError into the
printed failure line, and always returns None normally. -/
theorem create_s3_bucket_matches_described (api : CreateBucketRequest → Except ClientError Unit)
    (bucket_name : String) (region : Option String) :
    create_s3_bucket api bucket_name region =
      create_s3_bucket_described api bucket_name region :=
  create_s3_bucket_run api bucket_name region

/-- C8: current_time matches "UTC" case-insensitively: whenever the uppercased
argument is "UTC" it takes the fixed UTC branch, so the result equals that of
the literal "UTC" argument and is independent of the zone database (no
ZoneInfo lookup happens). -/
theorem current_time_utc_case_insensitive (db : TzDb) (clock : TzObj → PyDateTime)
    (t : String) (h : pyUpper t = "UTC") :
    current_time db clock t = current_time db clock "UTC" ∧
    (∀ db2 : TzDb, current_time db2 clock t = current_time db clock t) := by
  have hU : pyUpper "UTC" = "UTC" := rfl
  constructor
  · simp [current_time, h, hU]
  · intro db2
    simp [current_time, h]

/-- C8, witness: the lowercase "utc" argument behaves as "UTC". -/
theorem current_time_utc_case_insensitive_witness :
    pyUpper "utc" = "UTC" ∧
    current_time sampleTzDb sampleClock "utc" = current_time sampleTzDb sampleClock "UTC" :=
  ⟨rfl, (current_time_utc_case_insensitive sampleTzDb sampleClock "utc" rfl).1⟩

/-- C9: create_s3_bucket swallows every ClientError of the create-bucket
call: it always returns None normally, on a failing call it returns None with
the printed failure line, and the return value is the same whatever the API
does, so a caller cannot observe provisioning failure from it. -/
theorem create_s3_bucket_swallows_client_error
    (api : CreateBucketRequest → Except ClientError Unit)
    (bucket_name : String) (region : Option String) :
    (∃ msg, create_s3_bucket api bucket_name region = Except.ok (none, msg)) ∧
    (∀ e, api (requestFor bucket_name region) = Except.error e →
      create_s3_bucket api bucket_name region =
        Except.ok (none, "❌ Failed to create bucket: " ++ e.message)) ∧
    (∀ api2 : CreateBucketRequest → Except ClientError Unit,
      (create_s3_bucket api bucket_name region).map Prod.fst =
        (create_s3_bucket api2 bucket_name region).map Prod.fst) := by
  refine ⟨⟨_, create_s3_bucket_run api bucket_name region⟩, fun e he => ?_, fun api2 => ?_⟩
  · rw [create_s3_bucket_run, he]
  · rw [create_s3_bucket_run, create_s3_bucket_run]
    rfl

/-- C9, witness: a concrete refused call still returns None with the printed
failure line. -/
theorem create_s3_bucket_swallows_client_error_witness :
    alwaysDenied (requestFor "demo-bucket" none) =
      Except.error (ClientError.mk "Access Denied") ∧
    create_s3_bucket alwaysDenied "demo-bucket" none =
      Except.ok (none, "❌ Failed to create bucket: Access Denied") :=
  ⟨rfl, (create_s3_bucket_swallows_client_error alwaysDenied "demo-bucket" none).2.1
    (ClientError.mk "Access Denied") rfl⟩

-- The keys upload_directory writes are the bare file names of the walk.
theorem upload_directory_keys (walk : List WalkEntry) (b : String) :
    (upload_directory walk b).map UploadOp.key = walk.flatMap WalkEntry.files := by
  simp only [upload_directory, List.map_flatMap, List.map_map]
  congr 1
  funext e
  rw [show (UploadOp.key ∘ fun f => UploadOp.mk (pathJoin e.root f) b f) = fun f => f from
    funext fun f => rfl]
  simp

theorem s3Apply_cons (op : UploadOp) (ops : List UploadOp) (store : String → Option String) :
    s3Apply (op :: ops) store =
      s3Apply ops (fun q => if q = op.key then some op.src else store q) := by
  simp [s3Apply, List.foldl_cons]

/-- C10: upload_directory uploads every file under the walked tree using only
its base name as the object key (the subdirectory path is discarded), so two
files with the same base name in different subdirectories go to the same key
and the later upload overwrites the earlier one, which was nevertheless
issued. -/
theorem upload_directory_basename_keys_overwrite (bucket r1 r2 n : String)
    (w1 w2 w3 : List WalkEntry) (h3 : ∀ e ∈ w3, n ∉ e.files) :
    ((upload_directory (w1 ++ (WalkEntry.mk r1 [n] :: (w2 ++ (WalkEntry.mk r2 [n] :: w3))))
        bucket).map UploadOp.key =
      (w1 ++ (WalkEntry.mk r1 [n] :: (w2 ++ (WalkEntry.mk r2 [n] :: w3)))).flatMap
        WalkEntry.files) ∧
    UploadOp.mk (pathJoin r1 n) bucket n ∈
      upload_directory (w1 ++ (WalkEntry.mk r1 [n] :: (w2 ++ (WalkEntry.mk r2 [n] :: w3))))
        bucket ∧
    s3After (upload_directory (w1 ++ (WalkEntry.mk r1 [n] :: (w2 ++ (WalkEntry.mk r2 [n] :: w3))))
        bucket) n = some (pathJoin r2 n) := by
  refine ⟨upload_directory_keys _ bucket, ?_, ?_⟩
  · refine List.mem_flatMap.mpr ⟨WalkEntry.mk r1 [n], ?_, ?_⟩
    · simp
    · simp
  · have hsplit : upload_directory
        (w1 ++ (WalkEntry.mk r1 [n] :: (w2 ++ (WalkEntry.mk r2 [n] :: w3)))) bucket =
        (upload_directory w1 bucket ++ UploadOp.mk (pathJoin r1 n) bucket n ::
          upload_directory w2 bucket) ++ (UploadOp.mk (pathJoin r2 n) bucket n ::
          upload_directory w3 bucket) := by
      simp [upload_directory, List.flatMap_append, List.flatMap_cons]
    have hkeys : ∀ op ∈ upload_directory w3 bucket, op.key ≠ n := by
      intro op hop hkey
      obtain ⟨e, he, hmem⟩ := upload_directory_key_mem w3 bucket op hop
      rw [hkey] at hmem
      exact h3 e he hmem
    rw [hsplit]
    simp only [s3After]
    rw [s3Apply_append, s3Apply_cons]
    rw [s3Apply_not_written _ _ n hkeys]
    simp

/-- C10, witness: two files named doc.pdf in sub1 and sub2 collide on the key
doc.pdf, and the bucket ends up holding the sub2 copy. -/
theorem upload_directory_basename_keys_overwrite_witness :
    (∀ e ∈ [WalkEntry.mk "sub3" ["other.txt"]], "doc.pdf" ∉ e.files) ∧
    s3After (upload_directory
        ([] ++ (WalkEntry.mk "sub1" ["doc.pdf"] ::
          ([] ++ (WalkEntry.mk "sub2" ["doc.pdf"] :: [WalkEntry.mk "sub3" ["other.txt"]]))))
        "kb-bucket") "doc.pdf" = some (pathJoin "sub2" "doc.pdf") :=
  ⟨by decide, (upload_directory_basename_keys_overwrite "kb-bucket" "sub1" "sub2" "doc.pdf"
    [] [] [WalkEntry.mk "sub3" ["other.txt"]] (by decide)).2.2⟩

end Samples
